import Mathlib

/-!
Formal model of the geo_broadcasting_system incident pipeline.

Shallow embedding of the Go sources:
  - `internal/models`           : `Incident`, `LocationCheck` records;
  - `internal/webhook`          : `WebhookEvent`, the publisher, and the
                                  delivery worker (`processWebhookEvent`,
                                  `generateHMACSHA256`);
  - `internal/service/incident.go` : the incident service
                                  (`CheckLocation`, `GetIncident`,
                                  `CreateIncident`, `UpdateIncident`,
                                  `DeactivateIncident`, `ListIncidents`);
  - `internal/repository/incident.go` : the SQL-backed repository
                                  (`Delete`, `FindActiveLocation`);
  - `internal/config/config.go` : `Config` / `LoadConfig`.

External collaborators (PostgreSQL/PostGIS query evaluation, Redis, the
Go standard library's `strconv.Atoi`, `time.ParseDuration` and the
`crypto/hmac` SHA-256 primitive) are modelled as explicit parameters or
oracle fields, so every service-level function is a pure Lean function
of its inputs plus the outcomes of its external calls.  Each such
function returns both the Go return value and the trace of externally
visible side effects (records submitted for saving, events pushed,
cache operations issued, sleeps performed, log lines emitted).
-/

namespace GeoBS

/-- Go error values: a base error, or a wrapped error as produced by
`fmt.Errorf("...: %w", err)`. -/
inductive GoErr where
  | base (msg : String)
  | wrap (msg : String) (inner : GoErr)
deriving DecidableEq, Repr

/-- `errors.Is`: walk the unwrap chain looking for the target error. -/
def GoErr.is : GoErr → GoErr → Bool
  | .base m, target => GoErr.base m == target
  | .wrap m inner, target => GoErr.wrap m inner == target || GoErr.is inner target

/-- `models.Incident` (internal/models/incident.go).  The UUID is kept as
an opaque string; WGS84 coordinates are exact rationals standing for the
Go `float64` values, which the claims only ever copy and compare;
timestamps are abstract ticks. -/
structure Incident where
  id : String
  name : String
  description : String
  latitude : Rat
  longitude : Rat
  radiusMeters : Int
  status : String
  createdAt : Nat
  updatedAt : Nat
deriving DecidableEq, Repr

/-- `models.LocationCheck` (internal/models): the audit record of one
containment evaluation. -/
structure LocationCheck where
  id : Int
  userID : String
  latitude : Rat
  longitude : Rat
  isDangerous : Bool
  checkedAt : Nat
deriving DecidableEq, Repr

/-- `webhook.WebhookEvent` (internal/webhook/publisher.go). -/
structure WebhookEvent where
  userID : String
  latitude : Rat
  longitude : Rat
  isDangerous : Bool
  timestamp : Nat
  incidents : List Incident
deriving DecidableEq, Repr

/-! ### CheckLocation (internal/service/incident.go, lines 212–260) -/

/-- Outcomes of the external calls `CheckLocation` makes: the repository
containment query `FindActiveLocation`, the audit write
`SaveLocationCheck`, the queue push `Publish`, and the current time
`time.Now()`. -/
structure CheckOracle where
  findRes : Except GoErr (List Incident)
  saveErr : Option GoErr
  publishErr : Option GoErr
  now : Nat

/-- What one `CheckLocation` call returns and does: the Go return value,
the audit records submitted to `SaveLocationCheck`, the events passed to
the queue publisher's `Publish`, and the error-path log lines. -/
structure CheckOutcome where
  result : Except GoErr (List Incident)
  savedChecks : List LocationCheck
  published : List WebhookEvent
  logs : List String
deriving Repr

/-- `incidentService.CheckLocation`: query the containment index (fatal
on failure), classify, submit the audit record (failure logged and
swallowed), and if dangerous push exactly one webhook event (failure
logged and swallowed); return the containment list. -/
def CheckLocation (o : CheckOracle) (userID : String) (lat lon : Rat) :
    CheckOutcome :=
  match o.findRes with
  | .error err =>
      { result := .error (GoErr.wrap "service: failed to find active incidents" err),
        savedChecks := [], published := [],
        logs := ["Failed to find active incidents by location"] }
  | .ok activeIncident =>
      let isDanger : Bool := decide (activeIncident.length > 0)
      let locationCheck : LocationCheck :=
        { id := 0, userID := userID, latitude := lat, longitude := lon,
          isDangerous := isDanger, checkedAt := 0 }
      let saveLogs : List String :=
        match o.saveErr with
        | some _ => ["Failed to save location check to repository"]
        | none => []
      if isDanger then
        let webhookEvent : WebhookEvent :=
          { userID := userID, latitude := lat, longitude := lon,
            isDangerous := isDanger, timestamp := o.now,
            incidents := activeIncident }
        let pubLogs : List String :=
          match o.publishErr with
          | some _ => ["Failed to publish webhook event"]
          | none => ["Webhook event published successfully"]
        { result := .ok activeIncident,
          savedChecks := [locationCheck],
          published := [webhookEvent],
          logs := saveLogs ++ pubLogs }
      else
        { result := .ok activeIncident,
          savedChecks := [locationCheck],
          published := [],
          logs := saveLogs }

/-- The wrapping message `CheckLocation` uses when the containment query
fails. -/
def findErrMsg : String := "service: failed to find active incidents"

/-- A concrete oracle whose containment query fails. -/
def oracleFindFail : CheckOracle :=
  { findRes := .error (GoErr.base "db down"), saveErr := some (GoErr.base "s"),
    publishErr := some (GoErr.base "p"), now := 5 }

/-- A concrete incident. -/
def inc1 : Incident :=
  { id := "i1", name := "zone", description := "d", latitude := 10,
    longitude := 20, radiusMeters := 1000, status := "active",
    createdAt := 1, updatedAt := 1 }

/-- A concrete oracle whose containment query finds `inc1` while both
side effects fail. -/
def oracleFindOne : CheckOracle :=
  { findRes := .ok [inc1], saveErr := some (GoErr.base "s"),
    publishErr := some (GoErr.base "p"), now := 5 }

/-- A concrete oracle whose containment query finds nothing. -/
def oracleFindNone : CheckOracle :=
  { findRes := .ok [], saveErr := none, publishErr := none, now := 5 }

/-! ### GetIncident (internal/service/incident.go, lines 84–119) -/

/-- Outcomes of the external calls `GetIncident` makes.  `cacheGet` is
the pair `(incident, err)` returned by `repo.GetIncidentFromCache`
(part_004 lines 278–293): that repository method maps a Redis miss
(`redis.Nil`) to `(nil, nil)`, a real cache failure to `(nil, err)`,
and a hit to `(incident, nil)`. -/
structure GetOracle where
  cacheGet : Option Incident × Option GoErr
  storeGet : Except GoErr Incident
  cacheSetErr : Option GoErr

/-- What one `GetIncident` call returns and does: the Go return value,
how many `repo.GetByID` store reads it issued, the records it submitted
to `repo.SetIncidentCache`, and the warning log lines. -/
structure GetOutcome where
  result : Except GoErr Incident
  storeReads : Nat
  cacheSets : List Incident
  logs : List String
deriving Repr

/-- `incidentService.GetIncident`: try the cache (an error is logged and
treated as a miss), return immediately on a hit; on a miss read the
store (failure is wrapped and propagated), then best-effort write the
record back into the cache (failure logged, not propagated). -/
def GetIncident (o : GetOracle) : GetOutcome :=
  let cacheLogs : List String :=
    match (o.cacheGet).2 with
    | some _ => ["Failed to get incident from cache"]
    | none => []
  match (o.cacheGet).1 with
  | some incident =>
      { result := .ok incident, storeReads := 0, cacheSets := [],
        logs := cacheLogs }
  | none =>
      match o.storeGet with
      | .error e =>
          { result := .error (GoErr.wrap "service: could not get incident" e),
            storeReads := 1, cacheSets := [],
            logs := cacheLogs ++ ["Failed to get incident from repository"] }
      | .ok incident =>
          { result := .ok incident, storeReads := 1, cacheSets := [incident],
            logs := cacheLogs ++
              (match o.cacheSetErr with
               | some _ => ["Failed to set incident in cache"]
               | none => []) }

/-! ### Mutation paths (internal/service/incident.go, lines 60–181) -/

/-- Repository operations a mutation path issues, in the order they
appear in its trace. -/
inductive MutOp where
  | preRead
  | storeWrite
  | invalidate
deriving DecidableEq, Repr

/-- What `CreateIncident` returns and does: the returned error (if
any), the record submitted to `repo.Create` (status forced to
`"active"`), the ordered repository-operation trace, and the warning
log lines. -/
structure CreateOutcome where
  err : Option GoErr
  submitted : Incident
  ops : List MutOp
  logs : List String
deriving Repr

/-- `incidentService.CreateIncident`: force status to `"active"`, write
through to the store (failure wrapped and returned), then invalidate
the cache entry (failure logged, not returned). -/
def CreateIncident (createErr invalidateErr : Option GoErr)
    (incident : Incident) : CreateOutcome :=
  let inc := { incident with status := "active" }
  match createErr with
  | some e =>
      { err := some (GoErr.wrap "service: could not create incident" e),
        submitted := inc, ops := [.storeWrite],
        logs := ["Failed to create incident in repository"] }
  | none =>
      { err := none, submitted := inc, ops := [.storeWrite, .invalidate],
        logs :=
          match invalidateErr with
          | some _ => ["Failed to invalidate incident cache after creation"]
          | none => [] }

/-- Outcomes of the external calls `UpdateIncident` makes: the pre-read
`repo.GetByID`, the write `repo.Update`, and the cache invalidation. -/
structure UpdateOracle where
  getRes : Except GoErr Incident
  updateErr : Option GoErr
  invalidateErr : Option GoErr

/-- What `UpdateIncident` returns and does; `submitted` is the merged
record passed to `repo.Update` when the write is reached. -/
structure UpdateOutcome where
  err : Option GoErr
  submitted : Option Incident
  ops : List MutOp
  logs : List String
deriving Repr

/-- `incidentService.UpdateIncident`: pre-read the existing record
(failure wrapped and returned), merge the updatable fields into it,
write through to the store (failure wrapped and returned), then
invalidate the cache entry (failure logged, not returned). -/
def UpdateIncident (o : UpdateOracle) (incident : Incident) : UpdateOutcome :=
  match o.getRes with
  | .error e =>
      { err := some (GoErr.wrap
          ("service: incident with id " ++ incident.id ++ " not found for update") e),
        submitted := none, ops := [.preRead],
        logs := ["Attempted to update a non-existent incident"] }
  | .ok existing =>
      let merged := { existing with
        name := incident.name, description := incident.description,
        latitude := incident.latitude, longitude := incident.longitude,
        radiusMeters := incident.radiusMeters, status := incident.status }
      match o.updateErr with
      | some e =>
          { err := some (GoErr.wrap "service: could not update incident" e),
            submitted := some merged, ops := [.preRead, .storeWrite],
            logs := ["Failed to update incident in repository"] }
      | none =>
          { err := none, submitted := some merged,
            ops := [.preRead, .storeWrite, .invalidate],
            logs :=
              match o.invalidateErr with
              | some _ => ["Failed to invalidate incident cache after update"]
              | none => [] }

/-- Outcomes of the external calls `DeactivateIncident` makes: the
pre-read `repo.GetByID`, the status-transition write `repo.Delete`, and
the cache invalidation. -/
structure DeactivateOracle where
  getRes : Except GoErr Incident
  deleteErr : Option GoErr
  invalidateErr : Option GoErr

/-- What `DeactivateIncident` returns and does. -/
structure DeactivateOutcome where
  err : Option GoErr
  ops : List MutOp
  logs : List String
deriving Repr

/-- `incidentService.DeactivateIncident`: pre-read the record (failure
wrapped and returned), issue the repository `Delete` status transition
(failure wrapped and returned), then invalidate the cache entry
(failure logged, not returned). -/
def DeactivateIncident (o : DeactivateOracle) (id : String) : DeactivateOutcome :=
  match o.getRes with
  | .error e =>
      { err := some (GoErr.wrap
          ("service: incident with id " ++ id ++ " not found for deactivate") e),
        ops := [.preRead],
        logs := ["Attempted to deactivate a non-existent incident"] }
  | .ok _ =>
      match o.deleteErr with
      | some e =>
          { err := some (GoErr.wrap "service: could not deactivate incident" e),
            ops := [.preRead, .storeWrite],
            logs := ["Failed to deactivate incident in repository"] }
      | none =>
          { err := none, ops := [.preRead, .storeWrite, .invalidate],
            logs :=
              match o.invalidateErr with
              | some _ => ["Failed to invalidate incident cache after deactivation"]
              | none => [] }

/-! ### Repository SQL semantics (src/unnamed/part_004) -/

/-- Effect of `UPDATE incidents SET status='inactive', updated_at=NOW()
WHERE id=$1` on one row. -/
def deactivateRow (id : String) (now : Nat) (r : Incident) : Incident :=
  if r.id = id then { r with status := "inactive", updatedAt := now } else r

/-- The `UPDATE` statement of `IncidentRepository.Delete` evaluated over
a table of rows: every row whose id matches gets its status set to
`'inactive'` and its `updated_at` touched; the command tag reports the
number of matched rows. -/
def deleteUpdateQuery (table : List Incident) (id : String) (now : Nat) :
    List Incident × Nat :=
  (table.map (deactivateRow id now),
   (table.filter fun r => r.id == id).length)

/-- `IncidentRepository.Delete` (part_004 lines 120–136): run the
update; a database failure is wrapped; `RowsAffected() == 0` becomes
the not-found error; otherwise success.  Returns the table after the
call together with the returned error. -/
def RepoDelete (execErr : Option GoErr) (table : List Incident)
    (id : String) (now : Nat) : List Incident × Option GoErr :=
  match execErr with
  | some e => (table, some (GoErr.wrap "failed to deactivate incident" e))
  | none =>
      let (t, n) := deleteUpdateQuery table id now
      if n = 0 then
        (t, some (GoErr.base ("incident with id " ++ id ++ " not found for deactivate")))
      else (t, none)

/-- `IncidentRepository.FindActiveLocation` (part_004 lines 190–239).
The SQL filter is `WHERE status = 'active' AND ST_DWithin(location,
ST_SetSRID(ST_MakePoint(lon, lat), 4326)::geography, radius_meters)`;
on PostGIS geography arguments `ST_DWithin(a, b, d)` holds exactly when
the geodesic (spheroidal) distance between `a` and `b` is at most `d`
meters, boundary inclusive.  The geodesic distance itself is computed
by PostGIS, an external collaborator, and is passed in here as the
abstract function `dist center_lat center_lon lat lon`; `execErr` is
the database connectivity outcome (`none` = the query ran). -/
def FindActiveLocation (dist : Rat → Rat → Rat → Rat → Rat)
    (execErr : Option GoErr) (table : List Incident) (lat lon : Rat) :
    Except GoErr (List Incident) :=
  match execErr with
  | some e => .error (GoErr.wrap "failed to find active incidents by location" e)
  | none =>
      .ok (table.filter fun r =>
        decide (r.status = "active" ∧
          dist r.latitude r.longitude lat lon ≤ (r.radiusMeters : Rat)))

/-- A concrete inactive incident. -/
def inc2 : Incident :=
  { id := "i2", name := "old", description := "d2", latitude := 3,
    longitude := 4, radiusMeters := 50, status := "inactive",
    createdAt := 1, updatedAt := 2 }

/-- A concrete oracle for `DeactivateIncident` whose pre-read fails. -/
def deactOracleMissing : DeactivateOracle :=
  { getRes := .error (GoErr.base "incident with id i9 not found"),
    deleteErr := none, invalidateErr := none }

/-- A concrete oracle for `DeactivateIncident` where every external
call succeeds except the cache invalidation. -/
def deactOracleOk : DeactivateOracle :=
  { getRes := .ok inc1, deleteErr := none,
    invalidateErr := some (GoErr.base "redis down") }

/-- A concrete geodesic-distance function (everything at distance 0),
used to instantiate the containment-query theorems. -/
def distZero : Rat → Rat → Rat → Rat → Rat := fun _ _ _ _ => 0

/-! ### Configuration (internal/config/config.go) -/

/-- The process environment, as seen by `os.LookupEnv`; `os.Getenv k`
is `(env k).getD ""`. -/
def Env := String → Option String

/-- The Go standard-library parsers the config helpers call, passed in
as explicit collaborators: `strconv.Atoi`, and `time.ParseDuration`
with its result in nanoseconds (`none` = parse error). -/
structure Stdlib where
  atoi : String → Option Int
  parseDuration : String → Option Int

/-- Modelled from the spec: the source snapshot's `Config` struct
(internal/config/config.go lines 14–34) lacks the two webhook retry
fields that the delivery worker reads (`cfg.WebhookMaxRetries` and
`cfg.WebhookBaseDelay`, part_001 lines 84–85), so their declaration is
missing from src; the spec lists "maximum retry attempts" and "initial
backoff delay (doubled each retry)" among the recognized configuration
options.  This structure supplies those two fields (the delay in
nanoseconds, Go's `time.Duration`); `Config` extends it with every
field present in the source. -/
structure WebhookRetryOptions where
  webhookMaxRetries : Int
  webhookBaseDelay : Int
deriving DecidableEq, Repr

/-- `config.Config` (internal/config/config.go lines 14–34), extended
with the spec-modelled webhook retry options. -/
structure Config extends WebhookRetryOptions where
  databaseURL : String
  httpPort : String
  logLevel : String
  redisAddr : String
  redisPass : String
  redisDB : Int
  webhookURL : String
  webhookSecret : String
  webhookTimeout : Int
  statsTimeWindowMinutes : Int
  apiKeys : List String
deriving DecidableEq, Repr

/-- `getEnv` (config.go lines 73–78). -/
def getEnv (env : Env) (key defaultValue : String) : String :=
  (env key).getD defaultValue

/-- `getEnvAsInt` (config.go lines 81–88): the default also covers a
set but unparsable value. -/
def getEnvAsInt (std : Stdlib) (env : Env) (key : String)
    (defaultValue : Int) : Int :=
  match env key with
  | some v =>
      match std.atoi v with
      | some i => i
      | none => defaultValue
  | none => defaultValue

/-- `getEnvAsDuration` (config.go lines 91–98). -/
def getEnvAsDuration (std : Stdlib) (env : Env) (key : String)
    (defaultValue : Int) : Int :=
  match env key with
  | some v =>
      match std.parseDuration v with
      | some d => d
      | none => defaultValue
  | none => defaultValue

/-- `strings.Split` on `","` followed by `strings.TrimSpace` on each
element (config.go lines 57–63); an unset or empty `API_KEYS` yields no
keys. -/
def parseAPIKeys (s : String) : List String :=
  if s = "" then [] else (s.splitOn ",").map (fun k => k.trim)

/-- `config.LoadConfig` (config.go lines 37–70): read every recognized
option from the environment with the source's defaults, then fail when
`DATABASE_URL` is empty.  Modelled from the spec: the maximum-retry and
base-delay options, missing from the source snapshot's `LoadConfig`,
are read with the same helpers as the source's other numeric and
duration options, under the names `WEBHOOK_MAX_RETRIES` and
`WEBHOOK_BASE_DELAY`; the source snapshot does not fix their default
values, so the defaults are passed in explicitly. -/
def LoadConfig (std : Stdlib) (env : Env)
    (defMaxRetries defBaseDelay : Int) : Except String Config :=
  let cfg : Config :=
    { databaseURL := (env "DATABASE_URL").getD "",
      httpPort := getEnv env "HTTP_PORT" "8080",
      logLevel := getEnv env "LOG_LEVEL" "info",
      redisAddr := getEnv env "REDIS_ADDR" "localhost:6379",
      redisPass := (env "REDIS_PASSWORD").getD "",
      redisDB := getEnvAsInt std env "REDIS_DB" 0,
      webhookURL := (env "WEBHOOK_URL").getD "",
      webhookSecret := (env "WEBHOOK_SECRET").getD "",
      webhookTimeout := getEnvAsDuration std env "WEBHOOK_TIMEOUT" 5000000000,
      statsTimeWindowMinutes := getEnvAsInt std env "STATS_TIME_WINDOW_MINUTES" 60,
      webhookMaxRetries := getEnvAsInt std env "WEBHOOK_MAX_RETRIES" defMaxRetries,
      webhookBaseDelay := getEnvAsDuration std env "WEBHOOK_BASE_DELAY" defBaseDelay,
      apiKeys := parseAPIKeys ((env "API_KEYS").getD "") }
  if cfg.databaseURL = "" then
    .error "DATABASE_URL environment variable is required"
  else .ok cfg

/-! ### Webhook delivery worker (src/unnamed/part_001) -/

/-- Two's-complement wraparound of Go's signed 64-bit arithmetic, used
for the `baseDelay *= 2` step (`time.Duration` is `int64`). -/
def wrap64 (x : Int) : Int := (x + 2 ^ 63) % 2 ^ 64 - 2 ^ 63

/-- Lowercase hexadecimal digit for a nibble (`encoding/hex`). -/
def hexDigit (n : Nat) : Char :=
  if n < 10 then Char.ofNat (48 + n) else Char.ofNat (97 + (n - 10))

/-- One byte to two lowercase hexadecimal digits, high nibble first;
the `% 256` makes the Go `byte` range explicit. -/
def hexEncodeByte (b : Nat) : List Char :=
  [hexDigit (b % 256 / 16), hexDigit (b % 16)]

/-- `hex.EncodeToString` over a byte sequence. -/
def hexEncode (bs : List Nat) : String :=
  String.mk (bs.map hexEncodeByte).flatten

/-- `generateHMACSHA256` (part_001 lines 125–129): the lowercase-hex
encoding of the HMAC-SHA256 digest of `data` under key `secret`.  The
digest itself is computed by `crypto/hmac` + `crypto/sha256`, external
collaborators, passed in as the abstract byte-level function
`hmacSha256 secret data`. -/
def generateHMACSHA256 (hmacSha256 : String → String → List Nat)
    (data secret : String) : String :=
  hexEncode (hmacSha256 secret data)

/-- What one delivery attempt's external calls do: request construction
fails, the HTTP round trip fails in transport, or a response with the
given status code arrives. -/
inductive AttemptOutcome where
  | reqError
  | transportError
  | status (code : Int)
deriving DecidableEq, Repr

/-- An outbound HTTP request as the worker builds it. -/
structure HttpRequest where
  method : String
  url : String
  body : String
  headers : List (String × String)
deriving DecidableEq, Repr

/-- `http.Header.Get`. -/
def headerGet (headers : List (String × String)) (k : String) :
    Option String :=
  (headers.find? fun p => p.1 == k).map fun p => p.2

/-- Terminal state of processing one event. -/
inductive DeliveryOutcome where
  | delivered
  | exhausted
deriving DecidableEq, Repr

/-- What processing one dequeued event does: the requests handed to the
HTTP client in order, the argument of each `time.Sleep` in order, and
the terminal state.  The model has no requeue operation because the
code has none: an exhausted event is simply dropped. -/
structure ProcessResult where
  requests : List HttpRequest
  sleeps : List Int
  outcome : DeliveryOutcome
deriving DecidableEq, Repr

/-- The request one delivery attempt builds (part_001 lines 88–100):
POST to the configured URL, body = the raw serialized payload,
`Content-Type: application/json`, plus — only when the secret is
non-empty — the `X-Webhook-Signature` header carrying
`generateHMACSHA256(rawPayload, secret)`. -/
def buildWebhookRequest (hmacSha256 : String → String → List Nat)
    (cfg : Config) (rawPayload : String) : HttpRequest :=
  { method := "POST", url := cfg.webhookURL, body := rawPayload,
    headers := [("Content-Type", "application/json")] ++
      (if cfg.webhookSecret ≠ "" then
        [("X-Webhook-Signature",
          generateHMACSHA256 hmacSha256 rawPayload cfg.webhookSecret)]
      else []) }

/-- The retry loop of `processWebhookEvent` (part_001 lines 87–119) as
structural recursion on the remaining iteration count (`for i := 0;
i < maxRetries; i++`).  `i` is the loop counter, `d` the current
`baseDelay`, `outcome i` what attempt `i`'s external calls do.  A
request-construction error consumes an iteration with no request, no
sleep and no delay change; a transport error or a non-2xx status
sleeps `d` and doubles the delay (64-bit wraparound); a 2xx status
returns immediately. -/
def processAttempts (hmacSha256 : String → String → List Nat)
    (cfg : Config) (outcome : Nat → AttemptOutcome) (rawPayload : String) :
    Nat → Nat → Int → ProcessResult
  | _, 0, _ => { requests := [], sleeps := [], outcome := .exhausted }
  | i, fuel + 1, d =>
      match outcome i with
      | .reqError =>
          processAttempts hmacSha256 cfg outcome rawPayload (i + 1) fuel d
      | .transportError =>
          let req := buildWebhookRequest hmacSha256 cfg rawPayload
          let rest := processAttempts hmacSha256 cfg outcome rawPayload
            (i + 1) fuel (wrap64 (d * 2))
          { requests := req :: rest.requests, sleeps := d :: rest.sleeps,
            outcome := rest.outcome }
      | .status code =>
          let req := buildWebhookRequest hmacSha256 cfg rawPayload
          if 200 ≤ code ∧ code < 300 then
            { requests := [req], sleeps := [], outcome := .delivered }
          else
            let rest := processAttempts hmacSha256 cfg outcome rawPayload
              (i + 1) fuel (wrap64 (d * 2))
            { requests := req :: rest.requests, sleeps := d :: rest.sleeps,
              outcome := rest.outcome }

/-- `processWebhookEvent` (part_001 lines 75–122): skip delivery
entirely (`none`) when no destination URL is configured; otherwise run
up to `cfg.WebhookMaxRetries` attempts starting from backoff
`cfg.WebhookBaseDelay`. -/
def processWebhookEvent (hmacSha256 : String → String → List Nat)
    (cfg : Config) (outcome : Nat → AttemptOutcome) (rawPayload : String) :
    Option ProcessResult :=
  if cfg.webhookURL = "" then none
  else some (processAttempts hmacSha256 cfg outcome rawPayload
    0 cfg.webhookMaxRetries.toNat cfg.webhookBaseDelay)

/-- Attempt `a` is a failed delivery attempt in the claims' sense: a
transport error or a non-2xx response. -/
def attemptFails (a : AttemptOutcome) : Prop :=
  a = .transportError ∨ ∃ c, a = .status c ∧ (c < 200 ∨ 300 ≤ c)

/-- The worker's backoff sequence: `backoffSeq d k` is the delay slept
after failed attempt `k` (0-based), starting at `d` and doubling with
64-bit wraparound. -/
def backoffSeq (d : Int) : Nat → Int
  | 0 => d
  | k + 1 => wrap64 (backoffSeq d k * 2)

/-! ### ListIncidents (internal/service/incident.go, lines 184–209) -/

/-- `incidentService.ListIncidents`: clamp the pagination arguments
(`page < 1` becomes 1; `pageSize < 1` or `> 100` becomes 20), call the
repository with the clamped values, wrap a repository error.  Returns
the Go result together with the `(page, pageSize)` actually passed to
the repository. -/
def ListIncidents (repoList : Int → Int → Except GoErr (List Incident))
    (page pageSize : Int) :
    Except GoErr (List Incident) × Int × Int :=
  let page := if page < 1 then 1 else page
  let pageSize := if pageSize < 1 ∨ pageSize > 100 then 20 else pageSize
  ((match repoList page pageSize with
    | .error e => .error (GoErr.wrap "service: could not list incidents" e)
    | .ok l => .ok l),
   page, pageSize)

/-- A concrete repository listing for the pagination witness. -/
def repoListFix : Int → Int → Except GoErr (List Incident) :=
  fun _ _ => .ok []

/-- A concrete standard-library oracle for the configuration theorems:
parses exactly the numerals and durations the concrete environment
below uses. -/
def stdFix : Stdlib :=
  { atoi := fun s =>
      if s = "7" then some 7 else if s = "30" then some 30 else none,
    parseDuration := fun s =>
      if s = "250ms" then some 250000000
      else if s = "3s" then some 3000000000 else none }

/-- A concrete environment assigning every webhook-related option. -/
def envFix : Env := fun k =>
  if k = "DATABASE_URL" then some "postgres://db"
  else if k = "WEBHOOK_URL" then some "https://example.com/hook"
  else if k = "WEBHOOK_SECRET" then some "s3cret"
  else if k = "WEBHOOK_TIMEOUT" then some "3s"
  else if k = "WEBHOOK_MAX_RETRIES" then some "7"
  else if k = "WEBHOOK_BASE_DELAY" then some "250ms"
  else if k = "STATS_TIME_WINDOW_MINUTES" then some "30"
  else none

/-- A concrete configuration for the worker theorems. -/
def cfgFix : Config :=
  { webhookMaxRetries := 3, webhookBaseDelay := 100,
    databaseURL := "postgres://db", httpPort := "8080", logLevel := "info",
    redisAddr := "localhost:6379", redisPass := "", redisDB := 0,
    webhookURL := "https://example.com/hook", webhookSecret := "s3cret",
    webhookTimeout := 5000000000, statsTimeWindowMinutes := 60,
    apiKeys := [] }

/-- The same concrete configuration without a signing secret. -/
def cfgFixNoSecret : Config := { cfgFix with webhookSecret := "" }

/-- A concrete abstract HMAC returning a fixed two-byte digest. -/
def hmacFix : String → String → List Nat := fun _ _ => [0, 171]

/-- An attempt-outcome oracle that always fails in transport. -/
def outcomeAllFail : Nat → AttemptOutcome := fun _ => .transportError

/-- An attempt-outcome oracle that returns 500 on attempt 0 and 200
from attempt 1 on. -/
def outcomeThenOk : Nat → AttemptOutcome := fun i =>
  if i = 0 then .status 500 else .status 200

end GeoBS

namespace GeoBS

/-- `fmt.Errorf("...: %w", err)` wraps `err`, so `errors.Is` on the
wrapped error finds `err`. -/
theorem GoErr.is_wrap (m : String) (e : GoErr) :
    GoErr.is (GoErr.wrap m e) e = true := by
  cases e <;> simp [GoErr.is]

/-- C1: if the containment query fails with `e`, `CheckLocation` returns
an error wrapping `e` (so `errors.Is` finds `e`); if it succeeds with
list `L`, `CheckLocation` returns exactly `L` and no error, whatever the
outcomes of the audit save and the queue push (the oracle's `saveErr`
and `publishErr` are universally quantified). -/
theorem CheckLocation_c1 (o : CheckOracle) (u : String) (lat lon : Rat) :
    (∀ e, o.findRes = .error e →
      (CheckLocation o u lat lon).result = .error (GoErr.wrap findErrMsg e) ∧
        GoErr.is (GoErr.wrap findErrMsg e) e = true) ∧
    (∀ L, o.findRes = .ok L →
      (CheckLocation o u lat lon).result = .ok L) := by
  constructor
  · intro e he
    constructor
    · simp [CheckLocation, he, findErrMsg]
    · cases e <;> simp [GoErr.is]
  · intro L hL
    unfold CheckLocation
    rw [hL]
    by_cases h : L.length > 0 <;> simp [h]

/-- Witness for C1 at concrete oracles: a failing query propagates the
error; a successful query returns its list even though both side
effects fail. -/
theorem CheckLocation_c1_witness :
    (CheckLocation oracleFindFail "u" 1 2).result
        = .error (GoErr.wrap findErrMsg (GoErr.base "db down")) ∧
    (CheckLocation oracleFindOne "u" 1 2).result = .ok [inc1] := by
  refine ⟨((CheckLocation_c1 oracleFindFail "u" 1 2).1 (GoErr.base "db down") rfl).1, ?_⟩
  exact (CheckLocation_c1 oracleFindOne "u" 1 2).2 [inc1] rfl

/-- C2: on a successful containment query returning `L`, the audit
record submitted for saving carries the call's user id and coordinates
and `isDangerous = (L ≠ [])`; exactly one webhook event is pushed iff
`L ≠ []`, and that event carries `Incidents = L`, `IsDangerous = true`,
and the call's user id and coordinates; an empty `L` pushes nothing. -/
theorem CheckLocation_c2 (o : CheckOracle) (u : String) (lat lon : Rat)
    (L : List Incident) (hL : o.findRes = .ok L) :
    (CheckLocation o u lat lon).savedChecks =
      [{ id := 0, userID := u, latitude := lat, longitude := lon,
         isDangerous := decide (L ≠ []), checkedAt := 0 }] ∧
    (L ≠ [] →
      (CheckLocation o u lat lon).published =
        [{ userID := u, latitude := lat, longitude := lon,
           isDangerous := true, timestamp := o.now, incidents := L }]) ∧
    (L = [] → (CheckLocation o u lat lon).published = []) := by
  unfold CheckLocation
  rw [hL]
  by_cases hne : L = []
  · subst hne; simp
  · have h : L.length > 0 := List.length_pos.mpr hne
    simp [h, hne]

/-- Witness for C2: a dangerous check submits an `isDangerous = true`
audit record and pushes exactly one event carrying the found list; a
safe check pushes nothing and records `isDangerous = false`. -/
theorem CheckLocation_c2_witness :
    (CheckLocation oracleFindOne "u" 1 2).savedChecks =
      [{ id := 0, userID := "u", latitude := 1, longitude := 2,
         isDangerous := true, checkedAt := 0 }] ∧
    (CheckLocation oracleFindOne "u" 1 2).published =
      [{ userID := "u", latitude := 1, longitude := 2, isDangerous := true,
         timestamp := 5, incidents := [inc1] }] ∧
    (CheckLocation oracleFindNone "u" 1 2).published = [] := by
  obtain ⟨h1, h2, -⟩ := CheckLocation_c2 oracleFindOne "u" 1 2 [inc1] rfl
  obtain ⟨-, -, h3⟩ := CheckLocation_c2 oracleFindNone "u" 1 2 [] rfl
  refine ⟨?_, ?_, h3 rfl⟩
  · rw [h1]; decide
  · rw [h2 (by decide)]; rfl

/-- C5: `GetIncident` returns the cached record immediately on a cache
hit (no store read); its result does not depend on the cache lookup's
error component (a cache error is treated as a miss); on a miss a store
failure is propagated (wrapped, `errors.Is`-matching); on store success
the store's record is returned, for every cache write-back outcome (the
oracle's `cacheSetErr` is universally quantified). -/
theorem GetIncident_c5 (o : GetOracle) :
    (∀ inc, (o.cacheGet).1 = some inc →
      (GetIncident o).result = .ok inc ∧ (GetIncident o).storeReads = 0) ∧
    ((GetIncident { o with cacheGet := ((o.cacheGet).1, none) }).result
        = (GetIncident o).result) ∧
    ((o.cacheGet).1 = none → ∀ e, o.storeGet = .error e →
      (GetIncident o).result
          = .error (GoErr.wrap "service: could not get incident" e) ∧
        GoErr.is (GoErr.wrap "service: could not get incident" e) e = true) ∧
    ((o.cacheGet).1 = none → ∀ inc, o.storeGet = .ok inc →
      (GetIncident o).result = .ok inc ∧ (GetIncident o).storeReads = 1) := by
  obtain ⟨⟨c1, c2⟩, sg, se⟩ := o
  refine ⟨?_, ?_, ?_, ?_⟩ <;>
    cases c1 <;> cases c2 <;> cases sg <;> cases se <;>
      simp [GetIncident, GoErr.is_wrap]

/-- Witness for C5: a hit is served from the cache with no store read;
with an erroring cache and a healthy store the store's record comes
back even though the cache write-back fails. -/
theorem GetIncident_c5_witness :
    (GetIncident { cacheGet := (some inc1, none),
                   storeGet := .error (GoErr.base "unused"),
                   cacheSetErr := none }).result = .ok inc1 ∧
    (GetIncident { cacheGet := (none, some (GoErr.base "cache down")),
                   storeGet := .ok inc2,
                   cacheSetErr := some (GoErr.base "cache down") }).result
        = .ok inc2 := by
  refine ⟨((GetIncident_c5 _).1 inc1 rfl).1, ?_⟩
  exact ((GetIncident_c5 _).2.2.2 rfl inc2 rfl).1

/-- C6: for each of `CreateIncident`, `UpdateIncident` and
`DeactivateIncident`: the operation trace puts the store write before
any invalidation, an invalidation is issued iff the store write
succeeded, a failed store write makes the operation return an error
with no invalidation issued, and with a successful store write the
operation returns success whatever the invalidation outcome (the
invalidation-error parameters are universally quantified). -/
theorem mutation_c6 (createErr invalidateErr : Option GoErr)
    (incident : Incident) (uo : UpdateOracle) (dv : DeactivateOracle)
    (id : String) :
    ((CreateIncident createErr invalidateErr incident).err = none
        ↔ createErr = none) ∧
    ((CreateIncident createErr invalidateErr incident).ops
        = if createErr = none then [.storeWrite, .invalidate] else [.storeWrite]) ∧
    (MutOp.invalidate ∈ (CreateIncident createErr invalidateErr incident).ops
        ↔ createErr = none) ∧
    (∀ e, uo.getRes = .error e →
      (UpdateIncident uo incident).err.isSome = true ∧
        (UpdateIncident uo incident).ops = [.preRead]) ∧
    (∀ ex, uo.getRes = .ok ex →
      (∀ e, uo.updateErr = some e →
        (UpdateIncident uo incident).err.isSome = true ∧
          (UpdateIncident uo incident).ops = [.preRead, .storeWrite]) ∧
      (uo.updateErr = none →
        (UpdateIncident uo incident).err = none ∧
          (UpdateIncident uo incident).ops = [.preRead, .storeWrite, .invalidate])) ∧
    (MutOp.invalidate ∈ (UpdateIncident uo incident).ops
        ↔ (∃ ex, uo.getRes = .ok ex) ∧ uo.updateErr = none) ∧
    (∀ e, dv.getRes = .error e →
      (DeactivateIncident dv id).err.isSome = true ∧
        (DeactivateIncident dv id).ops = [.preRead]) ∧
    (∀ ex, dv.getRes = .ok ex →
      (∀ e, dv.deleteErr = some e →
        (DeactivateIncident dv id).err.isSome = true ∧
          (DeactivateIncident dv id).ops = [.preRead, .storeWrite]) ∧
      (dv.deleteErr = none →
        (DeactivateIncident dv id).err = none ∧
          (DeactivateIncident dv id).ops = [.preRead, .storeWrite, .invalidate])) ∧
    (MutOp.invalidate ∈ (DeactivateIncident dv id).ops
        ↔ (∃ ex, dv.getRes = .ok ex) ∧ dv.deleteErr = none) := by
  obtain ⟨g, ue, ie⟩ := uo
  obtain ⟨g2, de, ie2⟩ := dv
  cases createErr <;> cases g <;> cases ue <;> cases g2 <;> cases de <;>
    simp [CreateIncident, UpdateIncident, DeactivateIncident]

/-- Witness for C6: a failed create issues no invalidation and errors;
a deactivate whose store write succeeds returns success although its
cache invalidation fails. -/
theorem mutation_c6_witness :
    (CreateIncident (some (GoErr.base "db")) none inc1).ops = [MutOp.storeWrite] ∧
    (DeactivateIncident deactOracleOk "i1").err = none := by
  have h := mutation_c6 (some (GoErr.base "db")) none inc1
      { getRes := .ok inc1, updateErr := none, invalidateErr := none }
      deactOracleOk "i1"
  refine ⟨?_, ((h.2.2.2.2.2.2.2.1 inc1 rfl).2 rfl).1⟩
  rw [h.2.1]
  simp

/-- C7: with the database reachable, `FindActiveLocation` returns,
without error, exactly the stored incidents whose status is `"active"`
and whose geodesic distance from the queried point to their center is
at most their radius (boundary inclusive); in particular no incident
with status `"inactive"` is ever in the result, and an empty result is
a non-error outcome (the `.ok` constructor). -/
theorem FindActiveLocation_c7 (dist : Rat → Rat → Rat → Rat → Rat)
    (table : List Incident) (lat lon : Rat) :
    ∃ l, FindActiveLocation dist none table lat lon = .ok l ∧
      (∀ r, r ∈ l ↔ r ∈ table ∧ r.status = "active" ∧
        dist r.latitude r.longitude lat lon ≤ (r.radiusMeters : Rat)) ∧
      ∀ r, r ∈ l → r.status ≠ "inactive" := by
  refine ⟨_, rfl, fun r => ?_, fun r hr => ?_⟩
  · simp [List.mem_filter, and_assoc]
  · have h := (List.mem_filter.mp hr).2
    simp only [decide_eq_true_eq] at h
    rw [h.1]
    decide

/-- Witness for C7: with a distance function that puts every point at
distance 0, the active incident `inc1` is found and the inactive `inc2`
is not. -/
theorem FindActiveLocation_c7_witness :
    ∃ l, FindActiveLocation distZero none [inc1, inc2] 10 20 = .ok l ∧
      inc1 ∈ l ∧ inc2 ∉ l := by
  obtain ⟨l, hl, hmem, hinact⟩ := FindActiveLocation_c7 distZero [inc1, inc2] 10 20
  refine ⟨l, hl, (hmem inc1).mpr ⟨by decide, by decide, by decide⟩, fun hin => ?_⟩
  exact hinact inc2 hin (by decide)

/-- C8 counterexample: on a concrete call whose target id is absent,
the service-level deactivation fails with a not-found error after a
separate pre-read (`repo.GetByID`) and never issues the store update at
all — so the not-found outcome does not arise from the update's row
count, contradicting the claim that the row-count check, rather than a
separate pre-read, is the existence signal. -/
theorem DeactivateIncident_c8_counterexample :
    (DeactivateIncident deactOracleMissing "i9").err.isSome = true ∧
    MutOp.preRead ∈ (DeactivateIncident deactOracleMissing "i9").ops ∧
    MutOp.storeWrite ∉ (DeactivateIncident deactOracleMissing "i9").ops := by
  decide

/-- C8 as amended: deactivation is a status transition, never a row
removal — the repository `Delete` update preserves the table's length
and every non-status, non-updated_at field, and at the repository level
it fails (with the not-found error) exactly when no row matches the id,
the row count being the existence signal; the service wrapper
additionally performs a separate pre-read (`repo.GetByID`) before the
update and fails with that not-found error, without attempting the
update, when the pre-read fails. -/
theorem RepoDelete_c8 (table : List Incident) (id : String) (now : Nat)
    (dv : DeactivateOracle) (sid : String) :
    ((RepoDelete none table id now).1 = table.map (deactivateRow id now)) ∧
    ((RepoDelete none table id now).1.length = table.length) ∧
    (∀ r, (deactivateRow id now r).id = r.id ∧
      (deactivateRow id now r).name = r.name ∧
      (deactivateRow id now r).description = r.description ∧
      (deactivateRow id now r).latitude = r.latitude ∧
      (deactivateRow id now r).longitude = r.longitude ∧
      (deactivateRow id now r).radiusMeters = r.radiusMeters ∧
      (deactivateRow id now r).createdAt = r.createdAt ∧
      (r.id = id → (deactivateRow id now r).status = "inactive" ∧
        (deactivateRow id now r).updatedAt = now) ∧
      (r.id ≠ id → deactivateRow id now r = r)) ∧
    ((RepoDelete none table id now).2 = none ↔ ∃ r ∈ table, r.id = id) ∧
    (∀ e, dv.getRes = .error e →
      (DeactivateIncident dv sid).err.isSome = true ∧
        (DeactivateIncident dv sid).ops = [.preRead]) ∧
    (∀ ex, dv.getRes = .ok ex →
      (DeactivateIncident dv sid).ops.head? = some .preRead) := by
  refine ⟨?_, ?_, ?_, ?_, ?_, ?_⟩
  · simp only [RepoDelete, deleteUpdateQuery]
    split <;> rfl
  · simp only [RepoDelete, deleteUpdateQuery]
    split <;> simp
  · intro r
    unfold deactivateRow
    by_cases h : r.id = id <;> simp [h]
  · simp only [RepoDelete, deleteUpdateQuery]
    constructor
    · intro h
      by_contra hno
      push_neg at hno
      have hfil : (table.filter fun r => r.id == id) = [] := by
        apply List.filter_eq_nil_iff.mpr
        intro a ha
        simp [hno a ha]
      simp [hfil] at h
    · rintro ⟨r, hr, hid⟩
      have hlen : (table.filter fun r => r.id == id).length ≠ 0 := by
        intro h0
        have hfil := List.length_eq_zero.mp h0
        have := List.filter_eq_nil_iff.mp hfil r hr
        simp [hid] at this
      simp [hlen]
  · obtain ⟨g2, de, ie2⟩ := dv
    cases g2 <;> cases de <;> simp [DeactivateIncident]
  · obtain ⟨g2, de, ie2⟩ := dv
    cases g2 <;> cases de <;> simp [DeactivateIncident]

/-- Witness for C8's amended theorem: deactivating `"i1"` in a
two-row table keeps both rows and succeeds, and a successful service
deactivation starts with the pre-read. -/
theorem RepoDelete_c8_witness :
    (RepoDelete none [inc1, inc2] "i1" 9).1.length = 2 ∧
    (RepoDelete none [inc1, inc2] "i1" 9).2 = none ∧
    (DeactivateIncident deactOracleOk "i1").ops.head? = some MutOp.preRead := by
  have h := RepoDelete_c8 [inc1, inc2] "i1" 9 deactOracleOk "i1"
  exact ⟨h.2.1, (h.2.2.2.1).mpr ⟨inc1, by decide, rfl⟩, h.2.2.2.2.2 inc1 rfl⟩

/-- A signed 64-bit value is unchanged by the wraparound. -/
theorem wrap64_eq_self (x : Int) (h1 : -(2 ^ 63) ≤ x) (h2 : x < 2 ^ 63) :
    wrap64 x = x := by
  have e63 : (2 : Int) ^ 63 = 9223372036854775808 := by norm_num
  have e64 : (2 : Int) ^ 64 = 18446744073709551616 := by norm_num
  unfold wrap64
  rw [e63, e64]
  rw [e63] at h1 h2
  omega

/-- Shifting the base of the backoff sequence by one doubling. -/
theorem backoffSeq_shift (d : Int) (k : Nat) :
    backoffSeq (wrap64 (d * 2)) k = backoffSeq d (k + 1) := by
  induction k with
  | zero => rfl
  | succ k ih => simp [backoffSeq, ih]

/-- Without 64-bit overflow the backoff sequence is exactly the doubling
geometric sequence. -/
theorem backoffSeq_pow (d : Int) (hd : 0 ≤ d) :
    ∀ k, d * 2 ^ k < 2 ^ 63 → backoffSeq d k = d * 2 ^ k := by
  intro k
  induction k with
  | zero => simp [backoffSeq]
  | succ k ih =>
      intro hk
      have hmono : d * 2 ^ k ≤ d * 2 ^ (k + 1) := by
        apply mul_le_mul_of_nonneg_left _ hd
        exact pow_le_pow_right₀ (by norm_num) (Nat.le_succ k)
      have hik := ih (lt_of_le_of_lt hmono hk)
      have hpos : 0 ≤ d * 2 ^ (k + 1) := by positivity
      calc backoffSeq d (k + 1) = wrap64 (backoffSeq d k * 2) := rfl
        _ = wrap64 (d * 2 ^ (k + 1)) := by rw [hik]; ring_nf
        _ = d * 2 ^ (k + 1) := wrap64_eq_self _ (by omega) hk

/-- Mapping over `List.range (n + 1)` peels off the first element. -/
theorem range_succ_map {α : Type} (f : Nat → α) (n : Nat) :
    (List.range (n + 1)).map f = f 0 :: (List.range n).map fun k => f (k + 1) := by
  rw [List.range_succ_eq_map, List.map_cons, List.map_map]
  rfl

/-- When every attempt fails (transport error or non-2xx), the retry
loop performs exactly `fuel` attempts, sleeps the backoff sequence
starting at `d`, and ends exhausted. -/
theorem processAttempts_allFail (hm : String → String → List Nat)
    (cfg : Config) (outcome : Nat → AttemptOutcome) (p : String)
    (hfail : ∀ j, attemptFails (outcome j)) :
    ∀ fuel i d, processAttempts hm cfg outcome p i fuel d =
      { requests := List.replicate fuel (buildWebhookRequest hm cfg p),
        sleeps := (List.range fuel).map (backoffSeq d),
        outcome := .exhausted } := by
  intro fuel
  induction fuel with
  | zero => intro i d; rfl
  | succ fuel ih =>
      intro i d
      rcases hfail i with h | ⟨c, hc, hcr⟩
      · simp [processAttempts, h, ih, List.replicate_succ, range_succ_map,
          backoffSeq_shift, backoffSeq]
      · have hnot : ¬(200 ≤ c ∧ c < 300) := by omega
        simp [processAttempts, hc, hnot, ih, List.replicate_succ,
          range_succ_map, backoffSeq_shift, backoffSeq]

/-- If the first `k` attempts fail (transport error or non-2xx) and
attempt `k` gets a 2xx response, the loop stops after exactly `k + 1`
requests, in the delivered state. -/
theorem processAttempts_firstSuccess (hm : String → String → List Nat)
    (cfg : Config) (outcome : Nat → AttemptOutcome) (p : String) (c : Int)
    (hc1 : 200 ≤ c) (hc2 : c < 300) :
    ∀ k fuel i d, k < fuel →
      (∀ j, j < k → attemptFails (outcome (i + j))) →
      outcome (i + k) = .status c →
      (processAttempts hm cfg outcome p i fuel d).requests.length = k + 1 ∧
      (processAttempts hm cfg outcome p i fuel d).outcome = .delivered := by
  intro k
  induction k with
  | zero =>
      intro fuel i d hk hfail hsucc
      obtain ⟨fuel, rfl⟩ : ∃ f, fuel = f + 1 := ⟨fuel - 1, by omega⟩
      rw [Nat.add_zero] at hsucc
      simp [processAttempts, hsucc, hc1, hc2]
  | succ k ih =>
      intro fuel i d hk hfail hsucc
      obtain ⟨fuel, rfl⟩ : ∃ f, fuel = f + 1 := ⟨fuel - 1, by omega⟩
      have h0 := hfail 0 (Nat.succ_pos k)
      rw [Nat.add_zero] at h0
      have hfail' : ∀ j, j < k → attemptFails (outcome (i + 1 + j)) := by
        intro j hj
        have hx := hfail (j + 1) (by omega)
        rwa [show i + (j + 1) = i + 1 + j by omega] at hx
      have hsucc' : outcome (i + 1 + k) = .status c := by
        rwa [show i + 1 + k = i + (k + 1) by omega]
      have hrec := ih fuel (i + 1) (wrap64 (d * 2)) (by omega) hfail' hsucc'
      rcases h0 with h | ⟨c2, hcs, hcr⟩
      · simp [processAttempts, h, hrec.1, hrec.2]
      · have hnot : ¬(200 ≤ c2 ∧ c2 < 300) := by omega
        simp [processAttempts, hcs, hnot, hrec.1, hrec.2]

/-- Every request the retry loop hands to the HTTP client is the one
`buildWebhookRequest` builds from the configuration and the raw
payload. -/
theorem processAttempts_requests_mem (hm : String → String → List Nat)
    (cfg : Config) (outcome : Nat → AttemptOutcome) (p : String) :
    ∀ fuel i d req,
      req ∈ (processAttempts hm cfg outcome p i fuel d).requests →
      req = buildWebhookRequest hm cfg p := by
  intro fuel
  induction fuel with
  | zero => intro i d req h; simp [processAttempts] at h
  | succ fuel ih =>
      intro i d req h
      cases ho : outcome i with
      | reqError =>
          simp only [processAttempts, ho] at h
          exact ih (i + 1) d req h
      | transportError =>
          simp only [processAttempts, ho] at h
          rcases List.mem_cons.mp h with h1 | h2
          · exact h1
          · exact ih _ _ req h2
      | status code =>
          simp only [processAttempts, ho] at h
          by_cases hcc : 200 ≤ code ∧ code < 300
          · rw [if_pos hcc] at h
            simpa using h
          · rw [if_neg hcc] at h
            rcases List.mem_cons.mp h with h1 | h2
            · exact h1
            · exact ih _ _ req h2

/-- C3: with a destination URL configured: (a) when every delivery
attempt fails (transport error or non-2xx), the worker makes exactly
`WebhookMaxRetries` attempts, the slept delays are the backoff sequence
of the configured base delay, and the event ends exhausted — dropped,
the result trace containing no requeue; (b) each backoff delay is the
64-bit doubling of the previous one, and below the `int64` overflow
bound the delay slept after failed attempt `k` is exactly
`baseDelay * 2 ^ k`; (c) if the first `k` attempts fail and attempt `k`
(0-based, `k < max`) receives a 2xx status, processing stops, delivered,
after exactly `k + 1` attempts. -/
theorem processWebhookEvent_c3 (hm : String → String → List Nat)
    (cfg : Config) (outcome : Nat → AttemptOutcome) (p : String)
    (hurl : cfg.webhookURL ≠ "") :
    ((∀ j, attemptFails (outcome j)) →
      processWebhookEvent hm cfg outcome p = some
        { requests := List.replicate cfg.webhookMaxRetries.toNat
            (buildWebhookRequest hm cfg p),
          sleeps := (List.range cfg.webhookMaxRetries.toNat).map
            (backoffSeq cfg.webhookBaseDelay),
          outcome := .exhausted }) ∧
    (∀ k, backoffSeq cfg.webhookBaseDelay (k + 1)
        = wrap64 (backoffSeq cfg.webhookBaseDelay k * 2)) ∧
    (0 ≤ cfg.webhookBaseDelay →
      ∀ k, cfg.webhookBaseDelay * 2 ^ k < 2 ^ 63 →
        backoffSeq cfg.webhookBaseDelay k = cfg.webhookBaseDelay * 2 ^ k) ∧
    (∀ k c, k < cfg.webhookMaxRetries.toNat →
      (∀ j, j < k → attemptFails (outcome j)) →
      outcome k = .status c → 200 ≤ c → c < 300 →
      ∃ r, processWebhookEvent hm cfg outcome p = some r ∧
        r.requests.length = k + 1 ∧ r.outcome = .delivered) := by
  refine ⟨?_, fun k => rfl, backoffSeq_pow _, ?_⟩
  · intro hfail
    unfold processWebhookEvent
    rw [if_neg hurl, processAttempts_allFail hm cfg outcome p hfail]
  · intro k c hk hfail hsucc hc1 hc2
    refine ⟨_, by unfold processWebhookEvent; rw [if_neg hurl], ?_⟩
    exact processAttempts_firstSuccess hm cfg outcome p c hc1 hc2 k
      cfg.webhookMaxRetries.toNat 0 cfg.webhookBaseDelay hk
      (by intro j hj; simpa using hfail j hj) (by simpa using hsucc)

/-- Witness for C3: with max 3 retries and base delay 100 ns, an
always-failing subscriber yields exactly 3 attempts with sleeps
100, 200, 400 and an exhausted event; a subscriber failing once with
500 then answering 200 yields exactly 2 attempts, delivered. -/
theorem processWebhookEvent_c3_witness :
    (processWebhookEvent hmacFix cfgFix outcomeAllFail "p" = some
      { requests := List.replicate 3 (buildWebhookRequest hmacFix cfgFix "p"),
        sleeps := [100, 200, 400], outcome := .exhausted }) ∧
    (∃ r, processWebhookEvent hmacFix cfgFix outcomeThenOk "p" = some r ∧
      r.requests.length = 2 ∧ r.outcome = .delivered) := by
  constructor
  · have h := (processWebhookEvent_c3 hmacFix cfgFix outcomeAllFail "p"
      (by decide)).1 (fun j => Or.inl rfl)
    rw [h]
    decide
  · exact (processWebhookEvent_c3 hmacFix cfgFix outcomeThenOk "p"
      (by decide)).2.2.2 1 200 (by decide)
      (by intro j hj
          refine Or.inr ⟨500, ?_, by omega⟩
          have : j = 0 := by omega
          simp [this, outcomeThenOk])
      (by decide) (by decide) (by decide)

/-- Every character `hexDigit` produces for a nibble is a lowercase
hex digit. -/
theorem hexDigit_mem : ∀ n, n < 16 → hexDigit n ∈ "0123456789abcdef".data := by
  decide

/-- Every character of a hex-encoded byte string is a lowercase hex
digit. -/
theorem hexEncode_mem (bs : List Nat) (ch : Char)
    (h : ch ∈ (hexEncode bs).data) : ch ∈ "0123456789abcdef".data := by
  have h2 : ch ∈ (bs.map hexEncodeByte).flatten := h
  obtain ⟨l, hl, hchl⟩ := List.mem_flatten.mp h2
  obtain ⟨b, hb, rfl⟩ := List.mem_map.mp hl
  have hd1 : b % 256 / 16 < 16 := by omega
  have hd2 : b % 16 < 16 := by omega
  rcases List.mem_cons.mp hchl with h3 | h3
  · exact h3 ▸ hexDigit_mem _ hd1
  · rcases List.mem_cons.mp h3 with h4 | h4
    · exact h4 ▸ hexDigit_mem _ hd2
    · simp at h4

/-- C4: every request of every delivery attempt carries the raw
serialized payload as its body, POSTs to the configured URL with
`Content-Type: application/json`; when the shared secret is configured
(non-empty) the request carries the `X-Webhook-Signature` header whose
value is the lowercase-hex encoding of HMAC-SHA256(key = secret,
message = body bytes) — computed over exactly the bytes sent as the
body — and every character of that value is a lowercase hex digit; when
the secret is absent no signature header is attached. -/
theorem processWebhookEvent_c4 (hm : String → String → List Nat)
    (cfg : Config) (outcome : Nat → AttemptOutcome) (p : String)
    (r : ProcessResult) (req : HttpRequest)
    (hr : processWebhookEvent hm cfg outcome p = some r)
    (hreq : req ∈ r.requests) :
    req.method = "POST" ∧ req.url = cfg.webhookURL ∧ req.body = p ∧
    headerGet req.headers "Content-Type" = some "application/json" ∧
    (cfg.webhookSecret ≠ "" →
      headerGet req.headers "X-Webhook-Signature"
        = some (hexEncode (hm cfg.webhookSecret req.body))) ∧
    (cfg.webhookSecret = "" →
      headerGet req.headers "X-Webhook-Signature" = none) ∧
    (∀ sig, headerGet req.headers "X-Webhook-Signature" = some sig →
      ∀ ch, ch ∈ sig.data → ch ∈ "0123456789abcdef".data) := by
  have hbuild : req = buildWebhookRequest hm cfg p := by
    unfold processWebhookEvent at hr
    by_cases hurl : cfg.webhookURL = ""
    · rw [if_pos hurl] at hr; cases hr
    · rw [if_neg hurl] at hr
      cases hr
      exact processAttempts_requests_mem hm cfg outcome p _ _ _ req hreq
  subst hbuild
  by_cases hs : cfg.webhookSecret = ""
  · refine ⟨rfl, rfl, rfl, ?_, fun hns => absurd hs hns, fun _ => ?_, ?_⟩
    · simp [buildWebhookRequest, headerGet, hs]
    · simp [buildWebhookRequest, headerGet, hs]
    · intro sig hsig
      simp [buildWebhookRequest, headerGet, hs] at hsig
  · refine ⟨rfl, rfl, rfl, ?_, fun _ => ?_, fun he => absurd he hs, ?_⟩
    · simp [buildWebhookRequest, headerGet, hs]
    · simp [buildWebhookRequest, headerGet, generateHMACSHA256, hs]
    · intro sig hsig ch hch
      have hsig2 : sig = hexEncode (hm cfg.webhookSecret p) := by
        have hx := hsig
        simp [buildWebhookRequest, headerGet, generateHMACSHA256, hs] at hx
        exact hx.symm
      exact hexEncode_mem _ ch (hsig2 ▸ hch)

/-- Witness for C4: with secret `"s3cret"` and the two-byte abstract
digest `[0, 171]`, the request sent on a concrete delivery attempt has
body `"payload"` and signature header `"00ab"` — the lowercase-hex
encoding of the digest. -/
theorem processWebhookEvent_c4_witness :
    (buildWebhookRequest hmacFix cfgFix "payload").body = "payload" ∧
    headerGet (buildWebhookRequest hmacFix cfgFix "payload").headers
        "X-Webhook-Signature" = some "00ab" := by
  have h := processWebhookEvent_c4 hmacFix cfgFix outcomeAllFail "payload"
      (processAttempts hmacFix cfgFix outcomeAllFail "payload" 0 3 100)
      (buildWebhookRequest hmacFix cfgFix "payload") rfl (by decide)
  refine ⟨h.2.2.1, ?_⟩
  rw [h.2.2.2.2.1 (by decide)]
  decide

/-- With a URL configured and an always-failing subscriber, the worker
makes exactly `webhookMaxRetries` attempts and first sleeps exactly
`webhookBaseDelay`. -/
theorem processWebhookEvent_allFail_shape (hm : String → String → List Nat)
    (cfg : Config) (outcome : Nat → AttemptOutcome) (p : String)
    (hurl : cfg.webhookURL ≠ "") (hfail : ∀ j, attemptFails (outcome j)) :
    ∃ r, processWebhookEvent hm cfg outcome p = some r ∧
      r.requests.length = cfg.webhookMaxRetries.toNat ∧
      (0 < cfg.webhookMaxRetries →
        r.sleeps.head? = some cfg.webhookBaseDelay) := by
  refine ⟨_, by unfold processWebhookEvent; rw [if_neg hurl], ?_, ?_⟩
  · rw [processAttempts_allFail hm cfg outcome p hfail]
    simp
  · intro hpos
    rw [processAttempts_allFail hm cfg outcome p hfail]
    obtain ⟨m, hm2⟩ : ∃ m, cfg.webhookMaxRetries.toNat = m + 1 :=
      ⟨cfg.webhookMaxRetries.toNat - 1, by omega⟩
    show ((List.range cfg.webhookMaxRetries.toNat).map
        (backoffSeq cfg.webhookBaseDelay)).head? = some cfg.webhookBaseDelay
    rw [hm2, range_succ_map]
    rfl

/-- C9: `LoadConfig` recognizes the webhook delivery options: under the
concrete environment `envFix` (which assigns `WEBHOOK_MAX_RETRIES`,
`WEBHOOK_BASE_DELAY`, `WEBHOOK_URL`, `WEBHOOK_SECRET`,
`WEBHOOK_TIMEOUT` and `STATS_TIME_WINDOW_MINUTES`), whenever the
standard-library parsers parse the assigned texts, the loaded
configuration carries exactly the parsed values in the fields the
delivery worker consumes — and the worker really consumes them: with
that configuration an always-failing subscriber gets exactly
`WebhookMaxRetries` attempts and a first sleep of `WebhookBaseDelay`. -/
theorem LoadConfig_c9 (std : Stdlib) (dm dd : Int) (v7 v30 t3 d250 : Int)
    (ha7 : std.atoi "7" = some v7) (ha30 : std.atoi "30" = some v30)
    (hd3 : std.parseDuration "3s" = some t3)
    (hd250 : std.parseDuration "250ms" = some d250) :
    ∃ cfg, LoadConfig std envFix dm dd = .ok cfg ∧
      cfg.webhookMaxRetries = v7 ∧ cfg.webhookBaseDelay = d250 ∧
      cfg.webhookURL = "https://example.com/hook" ∧
      cfg.webhookSecret = "s3cret" ∧ cfg.webhookTimeout = t3 ∧
      cfg.statsTimeWindowMinutes = v30 ∧
      (∀ hm outcome p, (∀ j, attemptFails (outcome j)) →
        ∃ r, processWebhookEvent hm cfg outcome p = some r ∧
          r.requests.length = cfg.webhookMaxRetries.toNat ∧
          (0 < cfg.webhookMaxRetries →
            r.sleeps.head? = some cfg.webhookBaseDelay)) := by
  have e : LoadConfig std envFix dm dd = .ok
      { databaseURL := "postgres://db", httpPort := "8080",
        logLevel := "info", redisAddr := "localhost:6379", redisPass := "",
        redisDB := 0, webhookURL := "https://example.com/hook",
        webhookSecret := "s3cret", webhookTimeout := t3,
        statsTimeWindowMinutes := v30, webhookMaxRetries := v7,
        webhookBaseDelay := d250, apiKeys := [] } := by
    simp [LoadConfig, getEnv, getEnvAsInt, getEnvAsDuration, envFix,
      parseAPIKeys, ha7, ha30, hd3, hd250]
  refine ⟨_, e, rfl, rfl, rfl, rfl, rfl, rfl, ?_⟩
  intro hm outcome p hfail
  exact processWebhookEvent_allFail_shape hm _ outcome p
    (show ("https://example.com/hook" : String) ≠ "" from by decide) hfail

/-- Witness for C9: with the concrete parsers `stdFix`, the loaded
configuration carries max retries 7, base delay 250 ms (in ns), the
assigned URL and secret. -/
theorem LoadConfig_c9_witness :
    ∃ cfg, LoadConfig stdFix envFix 0 0 = .ok cfg ∧
      cfg.webhookMaxRetries = 7 ∧ cfg.webhookBaseDelay = 250000000 ∧
      cfg.webhookURL = "https://example.com/hook" ∧
      cfg.webhookSecret = "s3cret" := by
  obtain ⟨cfg, h1, h2, h3, h4, h5, -⟩ :=
    LoadConfig_c9 stdFix 0 0 7 30 3000000000 250000000
      (by decide) (by decide) (by decide) (by decide)
  exact ⟨cfg, h1, h2, h3, h4, h5⟩

/-- C10: `ListIncidents` passes `page` unchanged when `page ≥ 1` and
substitutes 1 otherwise; passes `pageSize` unchanged when
`1 ≤ pageSize ≤ 100` and substitutes 20 otherwise; hence the repository
is always invoked with `page ≥ 1` and `1 ≤ pageSize ≤ 100`, and a
successful repository listing at the clamped arguments is returned
as-is. -/
theorem ListIncidents_c10
    (repoList : Int → Int → Except GoErr (List Incident))
    (page pageSize : Int) :
    ((ListIncidents repoList page pageSize).2.1
        = if page < 1 then 1 else page) ∧
    ((ListIncidents repoList page pageSize).2.2
        = if pageSize < 1 ∨ pageSize > 100 then 20 else pageSize) ∧
    1 ≤ (ListIncidents repoList page pageSize).2.1 ∧
    1 ≤ (ListIncidents repoList page pageSize).2.2 ∧
    (ListIncidents repoList page pageSize).2.2 ≤ 100 ∧
    (∀ l, repoList (ListIncidents repoList page pageSize).2.1
        (ListIncidents repoList page pageSize).2.2 = .ok l →
      (ListIncidents repoList page pageSize).1 = .ok l) := by
  refine ⟨rfl, rfl, ?_, ?_, ?_, ?_⟩
  · show 1 ≤ if page < 1 then 1 else page
    split <;> omega
  · show 1 ≤ if pageSize < 1 ∨ pageSize > 100 then 20 else pageSize
    split <;> omega
  · show (if pageSize < 1 ∨ pageSize > 100 then 20 else pageSize) ≤ 100
    split <;> omega
  · intro l hl
    have hl2 : repoList (if page < 1 then 1 else page)
        (if pageSize < 1 ∨ pageSize > 100 then 20 else pageSize)
        = Except.ok l := hl
    show (match repoList (if page < 1 then 1 else page)
        (if pageSize < 1 ∨ pageSize > 100 then 20 else pageSize) with
      | .error e => Except.error (GoErr.wrap "service: could not list incidents" e)
      | .ok l => Except.ok l) = Except.ok l
    rw [hl2]

/-- Witness for C10: out-of-range arguments `(0, 500)` are clamped to
`(1, 20)`; in-range arguments `(2, 50)` pass through unchanged. -/
theorem ListIncidents_c10_witness :
    (ListIncidents repoListFix 0 500).2.1 = 1 ∧
    (ListIncidents repoListFix 0 500).2.2 = 20 ∧
    (ListIncidents repoListFix 2 50).2.1 = 2 ∧
    (ListIncidents repoListFix 2 50).2.2 = 50 ∧
    (ListIncidents repoListFix 2 50).1 = .ok [] := by
  have h1 := ListIncidents_c10 repoListFix 0 500
  have h2 := ListIncidents_c10 repoListFix 2 50
  refine ⟨?_, ?_, ?_, ?_, h2.2.2.2.2.2 [] rfl⟩
  · rw [h1.1]; norm_num
  · rw [h1.2.1]; norm_num
  · rw [h2.1]; norm_num
  · rw [h2.2.1]; norm_num

end GeoBS
